import Mathlib

/-!
Verification of the scoring demo program (`src/demo.py`).

The program consists of two pure scoring functions and a driver printing a
fixed comparison report.  Numeric values are embedded as rationals (`ℚ`):
the Python program manipulates floats, but every value the driver actually
produces is reached by exact decimal arithmetic, so the rational embedding
agrees with the observed behaviour (the transcript recorded in the module
docstring) on all of them.  Python `int()` applied to a number truncates
toward zero, which we model exactly.  The general scorer divides by the
problem size, which raises `ZeroDivisionError` in Python when the size is
zero; the embedding returns `Option ℚ`, with `none` for that failing case.
-/

/-- Python builtin `int()` applied to a rational number: truncation toward
zero (`Int.tdiv` truncates toward zero, matching CPython). -/
def pyInt (q : ℚ) : ℤ := q.num.tdiv q.den

/-- Embedding of `specialized_method` (src/demo.py lines 7-10): returns the
fixed solution quality 0.7, independent of the problem size. -/
def specialized_method (problem_size : ℚ) : ℚ :=
  let solution_quality : ℚ := 0.7
  solution_quality

/-- Embedding of `general_method` (src/demo.py lines 13-24).
`total_steps = int(computation_time * computation_speed)` with speed 1000,
`improvement_per_step = 1.0 / problem_size` (raises `ZeroDivisionError`
when the size is zero, modelled by `none`), quality is the product capped
at 1.0 via `min(solution_quality, 1.0)`. -/
def general_method (problem_size : ℚ) (computation_time : ℚ) : Option ℚ :=
  let computation_speed : ℚ := 1000
  let total_steps : ℤ := pyInt (computation_time * computation_speed)
  if problem_size = 0 then none
  else
    let improvement_per_step : ℚ := 1.0 / problem_size
    let solution_quality : ℚ := (total_steps : ℚ) * improvement_per_step
    some (min solution_quality 1.0)

/-- The formula the specification states for the general scorer
(spec section 4.2): `min(1.0, (t * 1000) * (1.0 / n))`, written from the
spec text for comparison with `general_method`, which is embedded from the
code.  The spec formula has no integer truncation of the step count. -/
def general_method_spec (problem_size : ℚ) (computation_time : ℚ) : ℚ :=
  min 1.0 ((computation_time * 1000) * (1.0 / problem_size))

/-- For a non-negative rational, Python truncation agrees with the floor. -/
theorem pyInt_eq_floor (q : ℚ) (h : 0 ≤ q) : pyInt q = ⌊q⌋ := by
  unfold pyInt
  rw [Rat.floor_def]
  exact Int.tdiv_eq_ediv (Rat.num_nonneg.mpr h) (Int.ofNat_nonneg q.den)

/-- Closed form of the general scorer away from the error case. -/
theorem general_method_eq (n t : ℚ) (hn : n ≠ 0) :
    general_method n t = some (min ((pyInt (t * 1000) : ℚ) * (1.0 / n)) 1.0) := by
  simp [general_method, hn]

/-- Closed form with the truncation expressed as a floor (valid since the
computation time is non-negative). -/
theorem general_method_eq_floor (n t : ℚ) (hn : n ≠ 0) (ht : 0 ≤ t) :
    general_method n t = some (min ((⌊t * 1000⌋ : ℚ) * (1 / n)) 1) := by
  rw [general_method_eq n t hn, pyInt_eq_floor (t * 1000) (mul_nonneg ht (by norm_num))]
  norm_num

/-- Values of the general scorer on the twelve driver input pairs. -/
theorem gm_5000_01 : general_method 5000 0.1 = some (1/50) := by
  rw [general_method_eq_floor 5000 0.1 (by norm_num) (by norm_num)]; norm_num [min_def]

theorem gm_5000_05 : general_method 5000 0.5 = some (1/10) := by
  rw [general_method_eq_floor 5000 0.5 (by norm_num) (by norm_num)]; norm_num [min_def]

theorem gm_5000_1 : general_method 5000 1.0 = some (1/5) := by
  rw [general_method_eq_floor 5000 1.0 (by norm_num) (by norm_num)]; norm_num [min_def]

theorem gm_5000_2 : general_method 5000 2.0 = some (2/5) := by
  rw [general_method_eq_floor 5000 2.0 (by norm_num) (by norm_num)]; norm_num [min_def]

theorem gm_10000_01 : general_method 10000 0.1 = some (1/100) := by
  rw [general_method_eq_floor 10000 0.1 (by norm_num) (by norm_num)]; norm_num [min_def]

theorem gm_10000_05 : general_method 10000 0.5 = some (1/20) := by
  rw [general_method_eq_floor 10000 0.5 (by norm_num) (by norm_num)]; norm_num [min_def]

theorem gm_10000_1 : general_method 10000 1.0 = some (1/10) := by
  rw [general_method_eq_floor 10000 1.0 (by norm_num) (by norm_num)]; norm_num [min_def]

theorem gm_10000_2 : general_method 10000 2.0 = some (1/5) := by
  rw [general_method_eq_floor 10000 2.0 (by norm_num) (by norm_num)]; norm_num [min_def]

theorem gm_20000_01 : general_method 20000 0.1 = some (1/200) := by
  rw [general_method_eq_floor 20000 0.1 (by norm_num) (by norm_num)]; norm_num [min_def]

theorem gm_20000_05 : general_method 20000 0.5 = some (1/40) := by
  rw [general_method_eq_floor 20000 0.5 (by norm_num) (by norm_num)]; norm_num [min_def]

theorem gm_20000_1 : general_method 20000 1.0 = some (1/20) := by
  rw [general_method_eq_floor 20000 1.0 (by norm_num) (by norm_num)]; norm_num [min_def]

theorem gm_20000_2 : general_method 20000 2.0 = some (1/10) := by
  rw [general_method_eq_floor 20000 2.0 (by norm_num) (by norm_num)]; norm_num [min_def]

theorem gm_zero_size (t : ℚ) : general_method 0 t = none := by simp [general_method]

/-! ### The driver (`main`, src/demo.py lines 26-58)

The driver prints a fixed report.  We embed it as the string it writes to
standard output: each Python `print(s)` contributes `s` followed by a
newline.  Python formats the qualities with the format spec `.2f` and the
computation times with `str()`; both are float operations, embedded below
as exact decimal rounding, which provably agrees with the recorded CPython
output on every value this driver prints (the tie cases 0.005 and
0.025 sit just above the tie as IEEE doubles, hence round up, matching
round-half-away-from-zero on the exact rationals). -/

/-- Embedding of the Python format spec `.2f` on the non-negative qualities
the driver prints: the value rounded to hundredths, ties away from zero,
written with exactly two decimal digits. -/
def formatQ2 (q : ℚ) : String :=
  let k : ℤ := ⌊q * 100 + 1/2⌋
  toString (k / 100) ++ "." ++
    (if k % 100 < 10 then "0" ++ toString (k % 100) else toString (k % 100))

/-- Embedding of Python `str()` on the computation times of the driver, all of
which are floats with an exact one-decimal representation (`0.1`, `0.5`,
`1.0`, `2.0`): the value written with exactly one decimal digit. -/
def formatQ1 (q : ℚ) : String :=
  let k : ℤ := ⌊q * 10 + 1/2⌋
  toString (k / 10) ++ "." ++ toString (k % 10)

theorem formatQ2_eq (q : ℚ) (k : ℤ) (h : ⌊q * 100 + 1/2⌋ = k) :
    formatQ2 q = toString (k / 100) ++ "." ++
      (if k % 100 < 10 then "0" ++ toString (k % 100) else toString (k % 100)) := by
  simp only [formatQ2, h]

theorem formatQ1_eq (q : ℚ) (k : ℤ) (h : ⌊q * 10 + 1/2⌋ = k) :
    formatQ1 q = toString (k / 10) ++ "." ++ toString (k % 10) := by
  simp only [formatQ1, h]

theorem fmt2_07 : formatQ2 0.7 = "0.70" := by
  rw [formatQ2_eq 0.7 70 (by norm_num)]; decide

theorem fmt2_002 : formatQ2 (50⁻¹ : ℚ) = "0.02" := by
  rw [formatQ2_eq (50⁻¹ : ℚ) 2 (by norm_num)]; decide

theorem fmt2_010 : formatQ2 (10⁻¹ : ℚ) = "0.10" := by
  rw [formatQ2_eq (10⁻¹ : ℚ) 10 (by norm_num)]; decide

theorem fmt2_020 : formatQ2 (5⁻¹ : ℚ) = "0.20" := by
  rw [formatQ2_eq (5⁻¹ : ℚ) 20 (by norm_num)]; decide

theorem fmt2_040 : formatQ2 (2/5 : ℚ) = "0.40" := by
  rw [formatQ2_eq (2/5 : ℚ) 40 (by norm_num)]; decide

theorem fmt2_001 : formatQ2 (100⁻¹ : ℚ) = "0.01" := by
  rw [formatQ2_eq (100⁻¹ : ℚ) 1 (by norm_num)]; decide

theorem fmt2_005 : formatQ2 (20⁻¹ : ℚ) = "0.05" := by
  rw [formatQ2_eq (20⁻¹ : ℚ) 5 (by norm_num)]; decide

theorem fmt2_0005 : formatQ2 (200⁻¹ : ℚ) = "0.01" := by
  rw [formatQ2_eq (200⁻¹ : ℚ) 1 (by rw [Int.floor_eq_iff] <;> norm_num)]; decide

theorem fmt2_0025 : formatQ2 (40⁻¹ : ℚ) = "0.03" := by
  rw [formatQ2_eq (40⁻¹ : ℚ) 3 (by rw [Int.floor_eq_iff] <;> norm_num)]; decide

theorem fmt1_01 : formatQ1 0.1 = "0.1" := by
  rw [formatQ1_eq 0.1 1 (by norm_num)]; decide

theorem fmt1_05 : formatQ1 0.5 = "0.5" := by
  rw [formatQ1_eq 0.5 5 (by norm_num)]; decide

theorem fmt1_1 : formatQ1 1.0 = "1.0" := by
  rw [formatQ1_eq 1.0 10 (by norm_num)]; decide

theorem fmt1_2 : formatQ1 2.0 = "2.0" := by
  rw [formatQ1_eq 2.0 20 (by norm_num)]; decide

/-- The hardcoded problem sizes of the driver (src/demo.py line 32). -/
def problem_sizes : List ℤ := [5000, 10000, 20000]

/-- The hardcoded computation times of the driver (src/demo.py line 33). -/
def computation_times : List ℚ := [0.1, 0.5, 1.0, 2.0]

/-- One line of the specialized-method results table
(src/demo.py line 39). -/
def specializedReportLine (size : ℤ) : String :=
  "Problem Size " ++ toString size ++ ": Solution Quality = " ++
    formatQ2 (specialized_method (size : ℚ)) ++ "\n"

/-- One line of the general-method results table (src/demo.py line 48);
`none` if the scorer fails. -/
def generalReportLine (size : ℤ) (comp_time : ℚ) : Option String :=
  (general_method (size : ℚ) comp_time).map fun quality =>
    "  Computation Time " ++ formatQ1 comp_time ++ "s -> Solution Quality: " ++
      formatQ2 quality ++ "\n"

/-- The block the driver prints for one problem size
(src/demo.py lines 45-49). -/
def generalReportBlock (size : ℤ) : Option String := do
  let lines ← computation_times.mapM (generalReportLine size)
  pure ("\nProblem Size " ++ toString size ++ ":\n" ++ String.join lines ++
    "(For problem size " ++ toString size ++
    ", the solution quality improves with more computation time.)\n")

/-- Embedding of `main` (src/demo.py lines 26-58) as the text it writes to
standard output; each `print(s)` contributes `s` followed by a newline.
`none` if any scorer call fails. -/
def main_output : Option String := do
  let blocks ← problem_sizes.mapM generalReportBlock
  pure
    ("=== The Bitter Lesson Demonstration ===\n\n" ++
    "This simulation compares two problem-solving approaches:\n" ++
    "1. **Specialized Method**: Uses built-in human knowledge. Performance remains constant regardless of computation time.\n" ++
    "2. **General Method**: Leverages computation through search and learning. Performance improves with more computation time.\n\n" ++
    "**Specialized Method Results:**\n" ++
    String.join (problem_sizes.map specializedReportLine) ++
    "\n(Notice that the specialized method\x27s performance remains constant across different problem sizes.)\n\n" ++
    "**General Method Results:**\n" ++
    String.join blocks ++
    "\n" ++
    "=== Conclusion ===\n" ++
    "The specialized method achieves a fixed solution quality regardless of computation time or problem size.\n" ++
    "In contrast, the general method\x27s solution quality improves with increased computation time, especially for larger problem sizes.\n" ++
    "\nThis demonstrates **\x27The Bitter Lesson\x27**:\n" ++
    "General methods that leverage computation ultimately outperform specialized methods that rely on built-in human knowledge.\n\n" ++
    "As computational resources continue to grow, focusing on general-purpose algorithms and learning methods becomes increasingly advantageous.\n")

/-- The fixed transcript recorded in the module docstring of src/demo.py
(lines 63-108), one string per output line. -/
def expected_transcript : String := String.join
  ["=== The Bitter Lesson Demonstration ===\n",
   "\n",
   "This simulation compares two problem-solving approaches:\n",
   "1. **Specialized Method**: Uses built-in human knowledge. Performance remains constant regardless of computation time.\n",
   "2. **General Method**: Leverages computation through search and learning. Performance improves with more computation time.\n",
   "\n",
   "**Specialized Method Results:**\n",
   "Problem Size 5000: Solution Quality = 0.70\n",
   "Problem Size 10000: Solution Quality = 0.70\n",
   "Problem Size 20000: Solution Quality = 0.70\n",
   "\n",
   "(Notice that the specialized method\x27s performance remains constant across different problem sizes.)\n",
   "\n",
   "**General Method Results:**\n",
   "\n",
   "Problem Size 5000:\n",
   "  Computation Time 0.1s -> Solution Quality: 0.02\n",
   "  Computation Time 0.5s -> Solution Quality: 0.10\n",
   "  Computation Time 1.0s -> Solution Quality: 0.20\n",
   "  Computation Time 2.0s -> Solution Quality: 0.40\n",
   "(For problem size 5000, the solution quality improves with more computation time.)\n",
   "\n",
   "Problem Size 10000:\n",
   "  Computation Time 0.1s -> Solution Quality: 0.01\n",
   "  Computation Time 0.5s -> Solution Quality: 0.05\n",
   "  Computation Time 1.0s -> Solution Quality: 0.10\n",
   "  Computation Time 2.0s -> Solution Quality: 0.20\n",
   "(For problem size 10000, the solution quality improves with more computation time.)\n",
   "\n",
   "Problem Size 20000:\n",
   "  Computation Time 0.1s -> Solution Quality: 0.01\n",
   "  Computation Time 0.5s -> Solution Quality: 0.03\n",
   "  Computation Time 1.0s -> Solution Quality: 0.05\n",
   "  Computation Time 2.0s -> Solution Quality: 0.10\n",
   "(For problem size 20000, the solution quality improves with more computation time.)\n",
   "\n",
   "=== Conclusion ===\n",
   "The specialized method achieves a fixed solution quality regardless of computation time or problem size.\n",
   "In contrast, the general method\x27s solution quality improves with increased computation time, especially for larger problem sizes.\n",
   "\n",
   "This demonstrates **\x27The Bitter Lesson\x27**:\n",
   "General methods that leverage computation ultimately outperform specialized methods that rely on built-in human knowledge.\n",
   "\n",
   "As computational resources continue to grow, focusing on general-purpose algorithms and learning methods becomes increasingly advantageous.\n"]

theorem toString_5000 : toString (5000 : ℤ) = "5000" := rfl

theorem toString_10000 : toString (10000 : ℤ) = "10000" := rfl

theorem toString_20000 : toString (20000 : ℤ) = "20000" := rfl

set_option maxRecDepth 10000 in
theorem block_5000 : generalReportBlock 5000 = some
    ("\nProblem Size 5000:\n" ++
     "  Computation Time 0.1s -> Solution Quality: 0.02\n" ++
     "  Computation Time 0.5s -> Solution Quality: 0.10\n" ++
     "  Computation Time 1.0s -> Solution Quality: 0.20\n" ++
     "  Computation Time 2.0s -> Solution Quality: 0.40\n" ++
     "(For problem size 5000, the solution quality improves with more computation time.)\n") := by
  simp [generalReportBlock, computation_times, generalReportLine, List.mapM.loop,
    gm_5000_01, gm_5000_05, gm_5000_1, gm_5000_2, toString_5000, String.join,
    fmt1_01, fmt1_05, fmt1_1, fmt1_2, fmt2_002, fmt2_010, fmt2_020, fmt2_040]

set_option maxRecDepth 10000 in
theorem block_10000 : generalReportBlock 10000 = some
    ("\nProblem Size 10000:\n" ++
     "  Computation Time 0.1s -> Solution Quality: 0.01\n" ++
     "  Computation Time 0.5s -> Solution Quality: 0.05\n" ++
     "  Computation Time 1.0s -> Solution Quality: 0.10\n" ++
     "  Computation Time 2.0s -> Solution Quality: 0.20\n" ++
     "(For problem size 10000, the solution quality improves with more computation time.)\n") := by
  simp [generalReportBlock, computation_times, generalReportLine, List.mapM.loop,
    gm_10000_01, gm_10000_05, gm_10000_1, gm_10000_2, toString_10000, String.join,
    fmt1_01, fmt1_05, fmt1_1, fmt1_2, fmt2_001, fmt2_005, fmt2_010, fmt2_020]

set_option maxRecDepth 10000 in
theorem block_20000 : generalReportBlock 20000 = some
    ("\nProblem Size 20000:\n" ++
     "  Computation Time 0.1s -> Solution Quality: 0.01\n" ++
     "  Computation Time 0.5s -> Solution Quality: 0.03\n" ++
     "  Computation Time 1.0s -> Solution Quality: 0.05\n" ++
     "  Computation Time 2.0s -> Solution Quality: 0.10\n" ++
     "(For problem size 20000, the solution quality improves with more computation time.)\n") := by
  simp [generalReportBlock, computation_times, generalReportLine, List.mapM.loop,
    gm_20000_01, gm_20000_05, gm_20000_1, gm_20000_2, toString_20000, String.join,
    fmt1_01, fmt1_05, fmt1_1, fmt1_2, fmt2_0005, fmt2_0025, fmt2_005, fmt2_010]

/-! ### The claims -/

/-- C1, counterexample: the claim says the general scorer returns exactly
`min(1.0, (t * 1000) * (1.0 / n))` for every `n > 0`, `t ≥ 0`; the code
first truncates `t * 1000` to an integer step count, so at `n = 1`,
`t = 1/2000` the code returns 0 while the claimed formula gives 1/2. -/
theorem C1_counterexample :
    general_method 1 (1/2000) ≠ some (general_method_spec 1 (1/2000)) := by
  have h : (⌊(1/2000 : ℚ) * 1000⌋ : ℤ) = 0 := by
    rw [Int.floor_eq_iff] <;> norm_num
  rw [general_method_eq_floor 1 (1/2000) (by norm_num) (by norm_num), h]
  norm_num [general_method_spec, min_def]

/-- C1 (amended): for every `n > 0` and `t ≥ 0`, the general scorer returns
exactly `min(1.0, int(t * 1000) * (1.0 / n))`, where the step count
`int(t * 1000)` is the integer truncation (equal to the floor since
`t ≥ 0`); the spec formula omits the truncation. -/
theorem C1_truncated_formula (n t : ℚ) (hn : 0 < n) (ht : 0 ≤ t) :
    general_method n t = some (min 1 ((⌊t * 1000⌋ : ℚ) * (1 / n))) := by
  rw [general_method_eq_floor n t hn.ne' ht, min_comm]

theorem C1_truncated_formula_witness :
    general_method 5000 0.1 = some (min 1 ((⌊(0.1 : ℚ) * 1000⌋ : ℚ) * (1 / 5000))) :=
  C1_truncated_formula 5000 0.1 (by norm_num) (by norm_num)

/-- C2: the specialized scorer returns the constant 0.7 for every numeric
input, with no dependence on the input (it is a pure function, so the
embedding has no side effects by construction). -/
theorem C2_specialized_constant :
    ∀ n m : ℚ, specialized_method n = 0.7 ∧ specialized_method n = specialized_method m :=
  fun _ _ => ⟨rfl, rfl⟩

/-- C3: for every `n > 0` and `t ≥ 0`, the value returned by the general
scorer lies in the closed interval [0, 1]. -/
theorem C3_unit_interval (n t q : ℚ) (hn : 0 < n) (ht : 0 ≤ t)
    (h : general_method n t = some q) : 0 ≤ q ∧ q ≤ 1 := by
  rw [general_method_eq_floor n t hn.ne' ht] at h
  obtain rfl := Option.some_inj.mp h
  have hfl : (0:ℚ) ≤ (⌊t * 1000⌋ : ℚ) := by
    exact_mod_cast Int.floor_nonneg.mpr (mul_nonneg ht (by norm_num))
  exact ⟨le_min (mul_nonneg hfl (one_div_nonneg.mpr hn.le)) zero_le_one,
    min_le_right _ _⟩

theorem C3_unit_interval_witness : (0:ℚ) ≤ 1/50 ∧ (1:ℚ)/50 ≤ 1 :=
  C3_unit_interval 5000 0.1 (1/50) (by norm_num) (by norm_num) gm_5000_01

/-- C4: for fixed `n > 0`, the general scorer is monotonically
non-decreasing in the computation time. -/
theorem C4_monotone_time (n t1 t2 q1 q2 : ℚ) (hn : 0 < n) (ht1 : 0 ≤ t1)
    (h12 : t1 ≤ t2) (h1 : general_method n t1 = some q1)
    (h2 : general_method n t2 = some q2) : q1 ≤ q2 := by
  rw [general_method_eq_floor n t1 hn.ne' ht1] at h1
  rw [general_method_eq_floor n t2 hn.ne' (ht1.trans h12)] at h2
  obtain rfl := Option.some_inj.mp h1
  obtain rfl := Option.some_inj.mp h2
  apply min_le_min _ le_rfl
  apply mul_le_mul_of_nonneg_right _ (one_div_nonneg.mpr hn.le)
  exact_mod_cast Int.floor_le_floor (mul_le_mul_of_nonneg_right h12 (by norm_num))

theorem C4_monotone_time_witness : (1:ℚ)/50 ≤ 2/5 :=
  C4_monotone_time 5000 0.1 2.0 (1/50) (2/5) (by norm_num) (by norm_num)
    (by norm_num) gm_5000_01 gm_5000_2

/-- C5: for fixed `t > 0`, the general scorer is monotonically
non-increasing in the problem size. -/
theorem C5_antitone_size (n1 n2 t q1 q2 : ℚ) (hn1 : 0 < n1) (h12 : n1 ≤ n2)
    (ht : 0 < t) (h1 : general_method n1 t = some q1)
    (h2 : general_method n2 t = some q2) : q2 ≤ q1 := by
  have hn2 : 0 < n2 := hn1.trans_le h12
  rw [general_method_eq_floor n1 t hn1.ne' ht.le] at h1
  rw [general_method_eq_floor n2 t hn2.ne' ht.le] at h2
  obtain rfl := Option.some_inj.mp h1
  obtain rfl := Option.some_inj.mp h2
  apply min_le_min _ le_rfl
  have hfl : (0:ℚ) ≤ (⌊t * 1000⌋ : ℚ) := by
    exact_mod_cast Int.floor_nonneg.mpr (mul_nonneg ht.le (by norm_num))
  exact mul_le_mul_of_nonneg_left
    (by rw [one_div, one_div]; exact inv_anti₀ hn1 h12) hfl

theorem C5_antitone_size_witness : (1:ℚ)/100 ≤ 1/50 :=
  C5_antitone_size 5000 10000 0.1 (1/50) (1/100) (by norm_num) (by norm_num)
    (by norm_num) gm_5000_01 gm_10000_01

/-- C6: the four concrete cases of the spec: the general scorer returns
0.02 at (5000, 0.1), 0.40 at (5000, 2.0), 0.05 at (20000, 1.0), and 0.05
at (10000, 0.5). -/
theorem C6_concrete_values :
    general_method 5000 0.1 = some 0.02 ∧ general_method 5000 2.0 = some 0.40 ∧
      general_method 20000 1.0 = some 0.05 ∧ general_method 10000 0.5 = some 0.05 := by
  refine ⟨?_, ?_, ?_, ?_⟩
  · rw [gm_5000_01]; norm_num [Option.some.injEq]
  · rw [gm_5000_2]; norm_num [Option.some.injEq]
  · rw [gm_20000_1]; norm_num [Option.some.injEq]
  · rw [gm_10000_05]; norm_num [Option.some.injEq]

/-- C7: at problem size 0 the general scorer fails with a division-by-zero
error (modelled as `none`) for every computation time, while for every
`n > 0` and `t ≥ 0` it returns a value. -/
theorem C7_zero_division :
    (∀ t : ℚ, general_method 0 t = none) ∧
      ∀ n t : ℚ, 0 < n → 0 ≤ t → ∃ q, general_method n t = some q :=
  ⟨gm_zero_size, fun n t hn ht => ⟨_, general_method_eq_floor n t hn.ne' ht⟩⟩

theorem C7_zero_division_witness :
    general_method 0 5 = none ∧ ∃ q, general_method 5000 0.1 = some q :=
  ⟨C7_zero_division.1 5, C7_zero_division.2 5000 0.1 (by norm_num) (by norm_num)⟩

set_option maxRecDepth 40000 in
/-- C8: running the driver with no arguments writes to standard output
exactly the fixed transcript (the module docstring of src/demo.py), with
qualities formatted to two decimal places, for the hardcoded lists
[5000, 10000, 20000] and [0.1, 0.5, 1.0, 2.0], in the fixed order
(header, specialized results, general results, conclusion), and it
succeeds (the result is `some`, never `none`). -/
theorem C8_transcript : main_output = some expected_transcript := by
  simp [main_output, problem_sizes, block_5000, block_10000, block_20000,
    List.mapM.loop, String.join, toString_5000, toString_10000, toString_20000,
    specializedReportLine, specialized_method, fmt2_07, expected_transcript]

/-- C9: for every `n > 0` and `t ≥ 0`, the general scorer returns
`min(1.0, ⌊t * 1000⌋ / n)` — the step count is the integer truncation of
`t * 1000` — and in particular it returns exactly 0 whenever
`0 ≤ t < 0.001`. -/
theorem C9_floor_semantics (n t : ℚ) (hn : 0 < n) (ht : 0 ≤ t) :
    general_method n t = some (min 1 ((⌊t * 1000⌋ : ℚ) / n)) ∧
      (t < 1/1000 → general_method n t = some 0) := by
  constructor
  · rw [general_method_eq_floor n t hn.ne' ht, min_comm, mul_one_div]
  · intro hlt
    have h0 : (⌊t * 1000⌋ : ℤ) = 0 := by
      rw [Int.floor_eq_zero_iff, Set.mem_Ico]
      exact ⟨mul_nonneg ht (by norm_num), by nlinarith⟩
    rw [general_method_eq_floor n t hn.ne' ht, h0]
    norm_num [min_def]

theorem C9_floor_semantics_witness :
    (general_method 1 (1/2000) = some (min 1 ((⌊(1/2000 : ℚ) * 1000⌋ : ℚ) / 1)) ∧
      ((1:ℚ)/2000 < 1/1000 → general_method 1 (1/2000) = some 0)) :=
  C9_floor_semantics 1 (1/2000) (by norm_num) (by norm_num)

/-- C10: for every `n > 0` and `t ≥ 0` with `⌊t * 1000⌋ ≥ n`, the general
scorer returns exactly 1.0 (the clamp saturates), and increasing the
computation time further leaves the result unchanged at 1.0. -/
theorem C10_saturation (n t : ℚ) (hn : 0 < n) (ht : 0 ≤ t)
    (hsat : n ≤ (⌊t * 1000⌋ : ℚ)) :
    general_method n t = some 1 ∧ ∀ u : ℚ, t ≤ u → general_method n u = some 1 := by
  have key : ∀ u : ℚ, 0 ≤ u → n ≤ (⌊u * 1000⌋ : ℚ) → general_method n u = some 1 := by
    intro u hu hsatu
    rw [general_method_eq_floor n u hn.ne' hu]
    have h1 : (1:ℚ) ≤ (⌊u * 1000⌋ : ℚ) * (1 / n) := by
      rw [mul_one_div, le_div_iff₀ hn]
      linarith
    rw [min_eq_right h1]
  refine ⟨key t ht hsat, fun u htu => key u (ht.trans htu) ?_⟩
  calc n ≤ (⌊t * 1000⌋ : ℚ) := hsat
    _ ≤ (⌊u * 1000⌋ : ℚ) := by
        exact_mod_cast Int.floor_le_floor (mul_le_mul_of_nonneg_right htu (by norm_num))

theorem C10_saturation_witness :
    general_method 100 0.5 = some 1 ∧ ∀ u : ℚ, (0.5:ℚ) ≤ u → general_method 100 u = some 1 :=
  C10_saturation 100 0.5 (by norm_num) (by norm_num) (by norm_num)
